import Mathlib

/-!
Shallow embedding of the PE/COFF header-parsing core
(src/pe/characteristic.rs and src/pe/header.rs) and proofs of the
specified properties.

Byte buffers are modelled as lists of naturals; each element stands for
one `u8` and is reduced modulo 256 when a little-endian integer is
assembled, mirroring the value range of Rust's `u8`.  Fallible Rust
functions returning `error::Result<T>` are modelled as `Except Error T`.
-/

set_option maxRecDepth 8000

/-- The single error kind of the core: `error::Error::Malformed(String)`. -/
inductive Error where
  | Malformed (msg : String)
deriving Repr, DecidableEq

/-- Rust's `{:#x}` hexadecimal formatting of an unsigned integer. -/
def hexFormat (n : Nat) : String :=
  "0x" ++ (Nat.toDigits 16 n).asString

/-- Little-endian value of a list of bytes (least significant byte first),
each byte taken modulo 256 as a `u8`. -/
def leValue : List Nat → Nat
  | [] => 0
  | b :: bs => b % 256 + 256 * leValue bs

/-- Model of scroll's fixed-width little-endian read (`pread_with`/`gread_with`
value computation): reads `w` bytes at `off`, failing when the read would
cross the end of the buffer. -/
def readLE (bytes : List Nat) (off w : Nat) : Option Nat :=
  if off + w ≤ bytes.length then
    some (leValue ((bytes.drop off).take w))
  else
    none

/- ## Characteristics (src/pe/characteristic.rs) -/

def IMAGE_FILE_RELOCS_STRIPPED : Nat := 0x0001
def IMAGE_FILE_EXECUTABLE_IMAGE : Nat := 0x0002
def IMAGE_FILE_LINE_NUMS_STRIPPED : Nat := 0x0004
def IMAGE_FILE_LOCAL_SYMS_STRIPPED : Nat := 0x0008
def IMAGE_FILE_AGGRESSIVE_WS_TRIM : Nat := 0x0010
def IMAGE_FILE_LARGE_ADDRESS_AWARE : Nat := 0x0020
def RESERVED : Nat := 0x0040
def IMAGE_FILE_BYTES_REVERSED_LO : Nat := 0x0080
def IMAGE_FILE_32BIT_MACHINE : Nat := 0x0100
def IMAGE_FILE_DEBUG_STRIPPED : Nat := 0x0200
def IMAGE_FILE_REMOVABLE_RUN_FROM_SWAP : Nat := 0x0400
def IMAGE_FILE_NET_RUN_FROM_SWAP : Nat := 0x0800
def IMAGE_FILE_SYSTEM : Nat := 0x1000
def IMAGE_FILE_DLL : Nat := 0x2000
def IMAGE_FILE_UP_SYSTEM_ONLY : Nat := 0x4000
def IMAGE_FILE_BYTES_REVERSED_HI : Nat := 0x8000

/-- `fn has_flag(characteristics: u16, flag: u16) -> bool`. -/
def has_flag (characteristics flag : Nat) : Bool :=
  characteristics &&& flag == flag

/-- `pub fn is_dll(characteristics: u16) -> bool`. -/
def is_dll (characteristics : Nat) : Bool :=
  has_flag characteristics IMAGE_FILE_DLL

/-- `pub fn is_exe(characteristics: u16) -> bool`. -/
def is_exe (characteristics : Nat) : Bool :=
  has_flag characteristics IMAGE_FILE_EXECUTABLE_IMAGE

def msg_linker_error : String :=
  "If IMAGE_FILE_EXECUTABLE_IMAGE is not set, it indicates a linker error."
def msg_relocs_stripped : String :=
  "IMAGE_FILE_RELOCS_STRIPPED is image only."
def msg_executable_image : String :=
  "IMAGE_FILE_EXECUTABLE_IMAGE is image only."
def msg_line_nums : String :=
  "IMAGE_FILE_LINE_NUMS_STRIPPED is deprecated and should be zero."
def msg_local_syms : String :=
  "IMAGE_FILE_LOCAL_SYMS_STRIPPED is deprecated and should be zero."
def msg_ws_trim : String :=
  "IMAGE_FILE_AGGRESSIVE_WS_TRIM is deprecated and must be zero."
def msg_bytes_lo : String :=
  "IMAGE_FILE_BYTES_REVERSED_LO is deprecated and should be zero."
def msg_bytes_hi : String :=
  "IMAGE_FILE_BYTES_REVERSED_HI is deprecated and should be zero."

/-- `pub fn validate(characteristics: u16, is_image: bool) -> error::Result<()>`:
collects the message of every violated rule in program order and fails once
with all of them joined by a newline. -/
def validate (characteristics : Nat) ( is_image : Bool) : Except Error Unit :=
  let error_messages : List String := []
  let error_messages :=
    if is_image then
      if !has_flag characteristics IMAGE_FILE_EXECUTABLE_IMAGE then
        error_messages ++ [msg_linker_error]
      else
        error_messages
    else
      let error_messages :=
        if has_flag characteristics IMAGE_FILE_RELOCS_STRIPPED then
          error_messages ++ [msg_relocs_stripped]
        else
          error_messages
      if has_flag characteristics IMAGE_FILE_EXECUTABLE_IMAGE then
        error_messages ++ [msg_executable_image]
      else
        error_messages
  let error_messages :=
    if has_flag characteristics IMAGE_FILE_LINE_NUMS_STRIPPED then
      error_messages ++ [msg_line_nums]
    else
      error_messages
  let error_messages :=
    if has_flag characteristics IMAGE_FILE_LOCAL_SYMS_STRIPPED then
      error_messages ++ [msg_local_syms]
    else
      error_messages
  let error_messages :=
    if has_flag characteristics IMAGE_FILE_AGGRESSIVE_WS_TRIM then
      error_messages ++ [msg_ws_trim]
    else
      error_messages
  let error_messages :=
    if has_flag characteristics IMAGE_FILE_BYTES_REVERSED_LO then
      error_messages ++ [msg_bytes_lo]
    else
      error_messages
  let error_messages :=
    if has_flag characteristics IMAGE_FILE_BYTES_REVERSED_HI then
      error_messages ++ [msg_bytes_hi]
    else
      error_messages
  if error_messages.isEmpty then
    .ok ()
  else
    .error (.Malformed (String.intercalate "\n" error_messages))

/-- Spec-side rule table (§4.2 of the spec): every rule as a pair of its
trigger condition and its description, in the fixed order the spec lists
them.  Used only to compare `validate` against the spec's wording. -/
def specRuleTable (characteristics : Nat) ( is_image : Bool) : List (Bool × String) :=
  [ ( is_image && !has_flag characteristics IMAGE_FILE_EXECUTABLE_IMAGE, msg_linker_error),
    (! is_image && has_flag characteristics IMAGE_FILE_RELOCS_STRIPPED, msg_relocs_stripped),
    (! is_image && has_flag characteristics IMAGE_FILE_EXECUTABLE_IMAGE, msg_executable_image),
    (has_flag characteristics IMAGE_FILE_LINE_NUMS_STRIPPED, msg_line_nums),
    (has_flag characteristics IMAGE_FILE_LOCAL_SYMS_STRIPPED, msg_local_syms),
    (has_flag characteristics IMAGE_FILE_AGGRESSIVE_WS_TRIM, msg_ws_trim),
    (has_flag characteristics IMAGE_FILE_BYTES_REVERSED_LO, msg_bytes_lo),
    (has_flag characteristics IMAGE_FILE_BYTES_REVERSED_HI, msg_bytes_hi) ]

/-- Spec-side list of the descriptions of every violated rule, in rule order. -/
def specViolations (characteristics : Nat) ( is_image : Bool) : List String :=
  ((specRuleTable characteristics is_image).filter (fun r => r.1)).map (fun r => r.2)

/-- Spec-side validator (§4.2): success iff no violation, otherwise one
error whose message newline-joins every violated rule's description. -/
def specValidate (characteristics : Nat) ( is_image : Bool) : Except Error Unit :=
  if specViolations characteristics is_image = [] then
    .ok ()
  else
    .error (.Malformed (String.intercalate "\n" (specViolations characteristics is_image)))

/- ## Headers (src/pe/header.rs) -/

/-- DOS header present in all PE binaries. -/
structure DosHeader where
  signature : Nat
  pe_pointer : Nat
deriving Repr, DecidableEq

def DOS_MAGIC : Nat := 0x5a4d
def PE_POINTER_OFFSET : Nat := 0x3c

def dos_signature_error : Error :=
  .Malformed ("cannot parse DOS signature (offset " ++ hexFormat 0 ++ ")")
def dos_pe_pointer_error : Error :=
  .Malformed ("cannot parse PE header pointer (offset " ++ hexFormat PE_POINTER_OFFSET ++ ")")

/-- `DosHeader::parse`: fixed-offset reads of the 16-bit signature at 0 and
the 32-bit PE pointer at 0x3c, each failure mapped to its own error. -/
def DosHeader.parse (bytes : List Nat) : Except Error DosHeader :=
  match readLE bytes 0 2 with
  | none => .error dos_signature_error
  | some signature =>
    match readLE bytes PE_POINTER_OFFSET 4 with
    | none => .error dos_pe_pointer_error
    | some pe_pointer => .ok { signature := signature, pe_pointer := pe_pointer }

/-- COFF Header. -/
structure CoffHeader where
  signature : Nat
  machine : Nat
  number_of_sections : Nat
  time_date_stamp : Nat
  pointer_to_symbol_table : Nat
  number_of_symbol_table : Nat
  size_of_optional_header : Nat
  characteristics : Nat
deriving Repr, DecidableEq

def SIZEOF_COFF_HEADER : Nat := 24
def COFF_MAGIC : Nat := 0x00004550
def COFF_MACHINE_X86 : Nat := 0x14c

/-- The error produced when the COFF field named `name` cannot be read at
byte offset `off`. -/
def coffFieldError (name : String) (off : Nat) : Error :=
  .Malformed ("cannot parse COFF " ++ name ++ " (offset " ++ hexFormat off ++ ")")

/-- `CoffHeader::parse`: eight sequential little-endian reads through a
mutable cursor.  The returned `Nat` is the final value of the caller's
offset variable: scroll's `gread_with` advances it only on a successful
read, so on error it sits where the failing read began. -/
def CoffHeader.parse (bytes : List Nat) (off : Nat) : Except Error CoffHeader × Nat :=
  match readLE bytes off 4 with
  | none => (.error (coffFieldError "signature" off), off)
  | some signature =>
    let off := off + 4
    match readLE bytes off 2 with
    | none => (.error (coffFieldError "machine" off), off)
    | some machine =>
      let off := off + 2
      match readLE bytes off 2 with
      | none => (.error (coffFieldError "number of sections" off), off)
      | some number_of_sections =>
        let off := off + 2
        match readLE bytes off 4 with
        | none => (.error (coffFieldError "time date stamp" off), off)
        | some time_date_stamp =>
          let off := off + 4
          match readLE bytes off 4 with
          | none => (.error (coffFieldError "pointer to symbol table" off), off)
          | some pointer_to_symbol_table =>
            let off := off + 4
            match readLE bytes off 4 with
            | none => (.error (coffFieldError "number of symbol" off), off)
            | some number_of_symbol_table =>
              let off := off + 4
              match readLE bytes off 2 with
              | none => (.error (coffFieldError "size of optional header" off), off)
              | some size_of_optional_header =>
                let off := off + 2
                match readLE bytes off 2 with
                | none => (.error (coffFieldError "characteristics" off), off)
                | some characteristics =>
                  (.ok { signature := signature, machine := machine,
                         number_of_sections := number_of_sections,
                         time_date_stamp := time_date_stamp,
                         pointer_to_symbol_table := pointer_to_symbol_table,
                         number_of_symbol_table := number_of_symbol_table,
                         size_of_optional_header := size_of_optional_header,
                         characteristics := characteristics }, off + 2)

/-- Aggregate header.  `OH` is the external optional-header type: the spec
(§2, §9) treats the optional-header parser as a pluggable external
capability this core only delegates to, so the aggregate is parametric in
it. -/
structure Header (OH : Type) where
  dos_header : DosHeader
  coff_header : CoffHeader
  optional_header : Option OH

/-- `Header::parse`: DOS header, then COFF header at `pe_pointer`, then —
iff `size_of_optional_header > 0` — delegation to the external
optional-header parser `pread_oh` at the cursor's position. -/
def Header.parse {OH : Type} (pread_oh : List Nat → Nat → Except Error OH)
    (bytes : List Nat) : Except Error (Header OH) :=
  match DosHeader.parse bytes with
  | .error e => .error e
  | .ok dos_header =>
    let off := dos_header.pe_pointer
    match CoffHeader.parse bytes off with
    | (.error e, _) => .error e
    | (.ok coff_header, off) =>
      if coff_header.size_of_optional_header > 0 then
        match pread_oh bytes off with
        | .error e => .error e
        | .ok oh =>
          .ok { dos_header := dos_header, coff_header := coff_header,
                optional_header := some oh }
      else
        .ok { dos_header := dos_header, coff_header := coff_header,
              optional_header := none }

/-- Byte widths of the eight COFF fields in parse order. -/
def coffWidths : List Nat := [4, 2, 2, 4, 4, 4, 2, 2]

/-- Names (as they appear in the error messages) of the eight COFF fields
in parse order. -/
def coffFieldNames : List String :=
  ["signature", "machine", "number of sections", "time date stamp",
   "pointer to symbol table", "number of symbol", "size of optional header",
   "characteristics"]

/-- Sum of the widths of the first `k` COFF fields: the cursor displacement
at which field `k` (0-based) is read. -/
def coffPrefix (k : Nat) : Nat := ((coffWidths.take k).foldr (· + ·) 0)

/-- The 688-byte sample PE buffer from the repository's `crss_header` test. -/
def CRSS_HEADER : List Nat :=
  [0x4d, 0x5a, 0x90, 0x00, 0x03, 0x00, 0x00, 0x00, 0x04, 0x00, 0x00, 0x00, 0xff, 0xff, 0x00, 0x00,
   0xb8, 0x00, 0x00, 0x00, 0x00, 0x00, 0x00, 0x00, 0x40, 0x00, 0x00, 0x00, 0x00, 0x00, 0x00, 0x00,
   0x00, 0x00, 0x00, 0x00, 0x00, 0x00, 0x00, 0x00, 0x00, 0x00, 0x00, 0x00, 0x00, 0x00, 0x00, 0x00,
   0x00, 0x00, 0x00, 0x00, 0x00, 0x00, 0x00, 0x00, 0x00, 0x00, 0x00, 0x00, 0xd0, 0x00, 0x00, 0x00,
   0x0e, 0x1f, 0xba, 0x0e, 0x00, 0xb4, 0x09, 0xcd, 0x21, 0xb8, 0x01, 0x4c, 0xcd, 0x21, 0x54, 0x68,
   0x69, 0x73, 0x20, 0x70, 0x72, 0x6f, 0x67, 0x72, 0x61, 0x6d, 0x20, 0x63, 0x61, 0x6e, 0x6e, 0x6f,
   0x74, 0x20, 0x62, 0x65, 0x20, 0x72, 0x75, 0x6e, 0x20, 0x69, 0x6e, 0x20, 0x44, 0x4f, 0x53, 0x20,
   0x6d, 0x6f, 0x64, 0x65, 0x2e, 0x0d, 0x0d, 0x0a, 0x24, 0x00, 0x00, 0x00, 0x00, 0x00, 0x00, 0x00,
   0xaa, 0x4a, 0xc3, 0xeb, 0xee, 0x2b, 0xad, 0xb8, 0xee, 0x2b, 0xad, 0xb8, 0xee, 0x2b, 0xad, 0xb8,
   0xee, 0x2b, 0xac, 0xb8, 0xfe, 0x2b, 0xad, 0xb8, 0x33, 0xd4, 0x66, 0xb8, 0xeb, 0x2b, 0xad, 0xb8,
   0x33, 0xd4, 0x63, 0xb8, 0xea, 0x2b, 0xad, 0xb8, 0x33, 0xd4, 0x7a, 0xb8, 0xed, 0x2b, 0xad, 0xb8,
   0x33, 0xd4, 0x64, 0xb8, 0xef, 0x2b, 0xad, 0xb8, 0x33, 0xd4, 0x61, 0xb8, 0xef, 0x2b, 0xad, 0xb8,
   0x52, 0x69, 0x63, 0x68, 0xee, 0x2b, 0xad, 0xb8, 0x00, 0x00, 0x00, 0x00, 0x00, 0x00, 0x00, 0x00,
   0x50, 0x45, 0x00, 0x00, 0x4c, 0x01, 0x05, 0x00, 0xd9, 0x8f, 0x15, 0x52, 0x00, 0x00, 0x00, 0x00,
   0x00, 0x00, 0x00, 0x00, 0xe0, 0x00, 0x02, 0x01, 0x0b, 0x01, 0x0b, 0x00, 0x00, 0x08, 0x00, 0x00,
   0x00, 0x10, 0x00, 0x00, 0x00, 0x00, 0x00, 0x00, 0x10, 0x11, 0x00, 0x00, 0x00, 0x10, 0x00, 0x00,
   0x00, 0x20, 0x00, 0x00, 0x00, 0x00, 0x40, 0x00, 0x00, 0x10, 0x00, 0x00, 0x00, 0x02, 0x00, 0x00,
   0x06, 0x00, 0x03, 0x00, 0x06, 0x00, 0x03, 0x00, 0x06, 0x00, 0x03, 0x00, 0x00, 0x00, 0x00, 0x00,
   0x00, 0x60, 0x00, 0x00, 0x00, 0x04, 0x00, 0x00, 0xe4, 0xab, 0x00, 0x00, 0x01, 0x00, 0x40, 0x05,
   0x00, 0x00, 0x04, 0x00, 0x00, 0x30, 0x00, 0x00, 0x00, 0x00, 0x10, 0x00, 0x00, 0x10, 0x00, 0x00,
   0x00, 0x00, 0x00, 0x00, 0x10, 0x00, 0x00, 0x00, 0x00, 0x00, 0x00, 0x00, 0x00, 0x00, 0x00, 0x00,
   0x3c, 0x30, 0x00, 0x00, 0x3c, 0x00, 0x00, 0x00, 0x00, 0x40, 0x00, 0x00, 0x00, 0x08, 0x00, 0x00,
   0x00, 0x00, 0x00, 0x00, 0x00, 0x00, 0x00, 0x00, 0x00, 0x1a, 0x00, 0x00, 0xb8, 0x22, 0x00, 0x00,
   0x00, 0x50, 0x00, 0x00, 0x38, 0x00, 0x00, 0x00, 0x10, 0x10, 0x00, 0x00, 0x38, 0x00, 0x00, 0x00,
   0x00, 0x00, 0x00, 0x00, 0x00, 0x00, 0x00, 0x00, 0x00, 0x00, 0x00, 0x00, 0x00, 0x00, 0x00, 0x00,
   0x00, 0x00, 0x00, 0x00, 0x00, 0x00, 0x00, 0x00, 0x68, 0x10, 0x00, 0x00, 0x5c, 0x00, 0x00, 0x00,
   0x00, 0x00, 0x00, 0x00, 0x00, 0x00, 0x00, 0x00, 0x00, 0x30, 0x00, 0x00, 0x3c, 0x00, 0x00, 0x00,
   0x00, 0x00, 0x00, 0x00, 0x00, 0x00, 0x00, 0x00, 0x00, 0x00, 0x00, 0x00, 0x00, 0x00, 0x00, 0x00,
   0x00, 0x00, 0x00, 0x00, 0x00, 0x00, 0x00, 0x00, 0x2e, 0x74, 0x65, 0x78, 0x74, 0x00, 0x00, 0x00,
   0x24, 0x06, 0x00, 0x00, 0x00, 0x10, 0x00, 0x00, 0x00, 0x08, 0x00, 0x00, 0x00, 0x04, 0x00, 0x00,
   0x00, 0x00, 0x00, 0x00, 0x00, 0x00, 0x00, 0x00, 0x00, 0x00, 0x00, 0x00, 0x20, 0x00, 0x00, 0x60,
   0x2e, 0x64, 0x61, 0x74, 0x61, 0x00, 0x00, 0x00, 0x3c, 0x03, 0x00, 0x00, 0x00, 0x20, 0x00, 0x00,
   0x00, 0x02, 0x00, 0x00, 0x00, 0x0c, 0x00, 0x00, 0x00, 0x00, 0x00, 0x00, 0x00, 0x00, 0x00, 0x00,
   0x00, 0x00, 0x00, 0x00, 0x40, 0x00, 0x00, 0xc0, 0x2e, 0x69, 0x64, 0x61, 0x74, 0x61, 0x00, 0x00,
   0xf8, 0x01, 0x00, 0x00, 0x00, 0x30, 0x00, 0x00, 0x00, 0x02, 0x00, 0x00, 0x00, 0x0e, 0x00, 0x00,
   0x00, 0x00, 0x00, 0x00, 0x00, 0x00, 0x00, 0x00, 0x00, 0x00, 0x00, 0x00, 0x40, 0x00, 0x00, 0x40,
   0x2e, 0x72, 0x73, 0x72, 0x63, 0x00, 0x00, 0x00, 0x00, 0x08, 0x00, 0x00, 0x00, 0x40, 0x00, 0x00,
   0x00, 0x08, 0x00, 0x00, 0x00, 0x10, 0x00, 0x00, 0x00, 0x00, 0x00, 0x00, 0x00, 0x00, 0x00, 0x00,
   0x00, 0x00, 0x00, 0x00, 0x40, 0x00, 0x00, 0x42, 0x2e, 0x72, 0x65, 0x6c, 0x6f, 0x63, 0x00, 0x00,
   0x86, 0x01, 0x00, 0x00, 0x00, 0x50, 0x00, 0x00, 0x00, 0x02, 0x00, 0x00, 0x00, 0x18, 0x00, 0x00,
   0x00, 0x00, 0x00, 0x00, 0x00, 0x00, 0x00, 0x00, 0x00, 0x00, 0x00, 0x00, 0x40, 0x00, 0x00, 0x42,
   0x00, 0x00, 0x00, 0x00, 0x00, 0x00, 0x00, 0x00, 0x00, 0x00, 0x00, 0x00, 0x00, 0x00, 0x00, 0x00,
   0x00, 0x00, 0x00, 0x00, 0x00, 0x00, 0x00, 0x00, 0x00, 0x00, 0x00, 0x00, 0x00, 0x00, 0x00, 0x00]

/- ## Helper lemmas -/

theorem readLE_eq_some (bytes : List Nat) (off w : Nat) (h : off + w ≤ bytes.length) :
    readLE bytes off w = some (leValue ((bytes.drop off).take w)) := by
  unfold readLE
  rw [if_pos h]

theorem readLE_eq_none (bytes : List Nat) (off w : Nat) (h : bytes.length < off + w) :
    readLE bytes off w = none := by
  unfold readLE
  rw [if_neg (by omega)]

theorem readLE_bound (bytes : List Nat) (off w v : Nat) (h : readLE bytes off w = some v) :
    off + w ≤ bytes.length := by
  unfold readLE at h
  by_cases hb : off + w ≤ bytes.length
  · exact hb
  · rw [if_neg hb] at h
    exact absurd h (by simp)

theorem has_flag_pow (c i : Nat) : has_flag c (2 ^ i) = c.testBit i := by
  unfold has_flag
  rw [Nat.and_two_pow]
  cases h : c.testBit i <;>
    simp [h, (Nat.pos_pow_of_pos i (by norm_num) : 0 < 2 ^ i).ne]

theorem has_flag_relocs (c : Nat) : has_flag c IMAGE_FILE_RELOCS_STRIPPED = c.testBit 0 := by
  rw [(by norm_num [IMAGE_FILE_RELOCS_STRIPPED] : IMAGE_FILE_RELOCS_STRIPPED = 2 ^ 0)]
  exact has_flag_pow c 0

theorem has_flag_exec (c : Nat) : has_flag c IMAGE_FILE_EXECUTABLE_IMAGE = c.testBit 1 := by
  rw [(by norm_num [IMAGE_FILE_EXECUTABLE_IMAGE] : IMAGE_FILE_EXECUTABLE_IMAGE = 2 ^ 1)]
  exact has_flag_pow c 1

theorem has_flag_line_nums (c : Nat) : has_flag c IMAGE_FILE_LINE_NUMS_STRIPPED = c.testBit 2 := by
  rw [(by norm_num [IMAGE_FILE_LINE_NUMS_STRIPPED] : IMAGE_FILE_LINE_NUMS_STRIPPED = 2 ^ 2)]
  exact has_flag_pow c 2

theorem has_flag_local_syms (c : Nat) : has_flag c IMAGE_FILE_LOCAL_SYMS_STRIPPED = c.testBit 3 := by
  rw [(by norm_num [IMAGE_FILE_LOCAL_SYMS_STRIPPED] : IMAGE_FILE_LOCAL_SYMS_STRIPPED = 2 ^ 3)]
  exact has_flag_pow c 3

theorem has_flag_ws_trim (c : Nat) : has_flag c IMAGE_FILE_AGGRESSIVE_WS_TRIM = c.testBit 4 := by
  rw [(by norm_num [IMAGE_FILE_AGGRESSIVE_WS_TRIM] : IMAGE_FILE_AGGRESSIVE_WS_TRIM = 2 ^ 4)]
  exact has_flag_pow c 4

theorem has_flag_bytes_lo (c : Nat) : has_flag c IMAGE_FILE_BYTES_REVERSED_LO = c.testBit 7 := by
  rw [(by norm_num [IMAGE_FILE_BYTES_REVERSED_LO] : IMAGE_FILE_BYTES_REVERSED_LO = 2 ^ 7)]
  exact has_flag_pow c 7

theorem has_flag_dll (c : Nat) : has_flag c IMAGE_FILE_DLL = c.testBit 13 := by
  rw [(by norm_num [IMAGE_FILE_DLL] : IMAGE_FILE_DLL = 2 ^ 13)]
  exact has_flag_pow c 13

theorem has_flag_bytes_hi (c : Nat) : has_flag c IMAGE_FILE_BYTES_REVERSED_HI = c.testBit 15 := by
  rw [(by norm_num [IMAGE_FILE_BYTES_REVERSED_HI] : IMAGE_FILE_BYTES_REVERSED_HI = 2 ^ 15)]
  exact has_flag_pow c 15

/- ## Claims about the characteristics component -/

/-- C6: `has_flag(characteristics, flag)` is true iff
`characteristics &&& flag == flag`; consequently `is_dll` is true iff bit
`0x2000` (bit 13) is set and `is_exe` is true iff bit `0x0002` (bit 1) is
set, each independent of all other bits. -/
theorem claim6_flag_predicates :
    (∀ characteristics flag : Nat,
       has_flag characteristics flag = true ↔ characteristics &&& flag = flag) ∧
    (∀ characteristics : Nat,
       is_dll characteristics = true ↔ characteristics.testBit 13 = true) ∧
    (∀ characteristics : Nat,
       is_exe characteristics = true ↔ characteristics.testBit 1 = true) := by
  refine ⟨fun c flag => ?_, fun c => ?_, fun c => ?_⟩
  · simp [has_flag]
  · rw [is_dll, has_flag_dll]
  · rw [is_exe, has_flag_exec]

/-- C5: `validate` evaluates every rule of §4.2 (not just the first), and on
any violation returns a single `Malformed` error whose message newline-joins
the violated rules' descriptions in the fixed §4.2 order; on no violation it
succeeds.  Stated as refinement against `specValidate`, which is written
from the spec's rule list. -/
theorem claim5_validate_refines_spec :
    ∀ (characteristics : Nat) ( is_image : Bool),
      validate characteristics is_image = specValidate characteristics is_image := by
  intro c b
  cases b <;>
    cases h1 : has_flag c IMAGE_FILE_RELOCS_STRIPPED <;>
    cases h2 : has_flag c IMAGE_FILE_EXECUTABLE_IMAGE <;>
    cases h3 : has_flag c IMAGE_FILE_LINE_NUMS_STRIPPED <;>
    cases h4 : has_flag c IMAGE_FILE_LOCAL_SYMS_STRIPPED <;>
    cases h5 : has_flag c IMAGE_FILE_AGGRESSIVE_WS_TRIM <;>
    cases h6 : has_flag c IMAGE_FILE_BYTES_REVERSED_LO <;>
    cases h7 : has_flag c IMAGE_FILE_BYTES_REVERSED_HI <;>
    simp [validate, specValidate, specViolations, specRuleTable,
          h1, h2, h3, h4, h5, h6, h7]

/-- C1 counterexample: with `is_image = true` and characteristics `0x0006`
the executable-image bit (bit 1) IS set, yet `validate` still fails
(because the deprecated line-numbers bit 0x0004 is set), so "fails iff bit
0x0002 is clear" is false as stated. -/
theorem claim1_counterexample :
    (validate 0x0006 true).isOk = false ∧ Nat.testBit 0x0006 1 = true := by
  constructor
  · rfl
  · decide

/-- C1 (amended): `validate(c, is_image=true)` fails iff bit 0x0002 is clear
OR any of the deprecated bits 0x0004, 0x0008, 0x0010, 0x0080, 0x8000 is set;
`validate(c, is_image=false)` fails iff bit 0x0001 or 0x0002 is set or any of
those deprecated bits is set; violations combine additively (0x0005 with
`is_image=false` gives exactly the two lines for bits 0x0001 and 0x0004). -/
theorem claim1_validate_failure_conditions :
    (∀ c : Nat, (validate c true).isOk = false ↔
       (c.testBit 1 = false ∨ c.testBit 2 = true ∨ c.testBit 3 = true ∨
        c.testBit 4 = true ∨ c.testBit 7 = true ∨ c.testBit 15 = true)) ∧
    (∀ c : Nat, (validate c false).isOk = false ↔
       (c.testBit 0 = true ∨ c.testBit 1 = true ∨ c.testBit 2 = true ∨
        c.testBit 3 = true ∨ c.testBit 4 = true ∨ c.testBit 7 = true ∨
        c.testBit 15 = true)) ∧
    validate 0x0005 false =
      .error (.Malformed (String.intercalate "\n" [msg_relocs_stripped, msg_line_nums])) := by
  refine ⟨fun c => ?_, fun c => ?_, rfl⟩
  · cases h1 : c.testBit 1 <;>
      cases h2 : c.testBit 2 <;>
      cases h3 : c.testBit 3 <;>
      cases h4 : c.testBit 4 <;>
      cases h7 : c.testBit 7 <;>
      cases h15 : c.testBit 15 <;>
      simp [validate, Except.isOk, Except.toBool, has_flag_relocs, has_flag_exec, has_flag_line_nums,
            has_flag_local_syms, has_flag_ws_trim, has_flag_bytes_lo,
            has_flag_bytes_hi, h1, h2, h3, h4, h7, h15]
  · cases h0 : c.testBit 0 <;>
      cases h1 : c.testBit 1 <;>
      cases h2 : c.testBit 2 <;>
      cases h3 : c.testBit 3 <;>
      cases h4 : c.testBit 4 <;>
      cases h7 : c.testBit 7 <;>
      cases h15 : c.testBit 15 <;>
      simp [validate, Except.isOk, Except.toBool, has_flag_relocs, has_flag_exec, has_flag_line_nums,
            has_flag_local_syms, has_flag_ws_trim, has_flag_bytes_lo,
            has_flag_bytes_hi, h0, h1, h2, h3, h4, h7, h15]

/-- C9: the result of `validate` depends only on bits 0, 1, 2, 3, 4, 7 and
15 of the characteristics value (masks 0x0001, 0x0002, 0x0004, 0x0008,
0x0010, 0x0080, 0x8000); two values agreeing on those bits validate
identically, and the remaining bits — including RESERVED 0x0040 — never
cause a violation (0x7F60 sets every unchecked bit and still passes). -/
theorem claim9_validate_depends_only_on_checked_bits :
    (∀ ( is_image : Bool) (c c2 : Nat),
       (∀ i ∈ ([0, 1, 2, 3, 4, 7, 15] : List Nat), c.testBit i = c2.testBit i) →
       validate c is_image = validate c2 is_image) ∧
    validate 0x7F60 false = .ok () ∧ validate 0x7F62 true = .ok () := by
  refine ⟨fun b c c2 h => ?_, rfl, rfl⟩
  have e0 : has_flag c IMAGE_FILE_RELOCS_STRIPPED = has_flag c2 IMAGE_FILE_RELOCS_STRIPPED := by
    rw [has_flag_relocs, has_flag_relocs, h 0 (by simp)]
  have e1 : has_flag c IMAGE_FILE_EXECUTABLE_IMAGE = has_flag c2 IMAGE_FILE_EXECUTABLE_IMAGE := by
    rw [has_flag_exec, has_flag_exec, h 1 (by simp)]
  have e2 : has_flag c IMAGE_FILE_LINE_NUMS_STRIPPED = has_flag c2 IMAGE_FILE_LINE_NUMS_STRIPPED := by
    rw [has_flag_line_nums, has_flag_line_nums, h 2 (by simp)]
  have e3 : has_flag c IMAGE_FILE_LOCAL_SYMS_STRIPPED = has_flag c2 IMAGE_FILE_LOCAL_SYMS_STRIPPED := by
    rw [has_flag_local_syms, has_flag_local_syms, h 3 (by simp)]
  have e4 : has_flag c IMAGE_FILE_AGGRESSIVE_WS_TRIM = has_flag c2 IMAGE_FILE_AGGRESSIVE_WS_TRIM := by
    rw [has_flag_ws_trim, has_flag_ws_trim, h 4 (by simp)]
  have e7 : has_flag c IMAGE_FILE_BYTES_REVERSED_LO = has_flag c2 IMAGE_FILE_BYTES_REVERSED_LO := by
    rw [has_flag_bytes_lo, has_flag_bytes_lo, h 7 (by simp)]
  have e15 : has_flag c IMAGE_FILE_BYTES_REVERSED_HI = has_flag c2 IMAGE_FILE_BYTES_REVERSED_HI := by
    rw [has_flag_bytes_hi, has_flag_bytes_hi, h 15 (by simp)]
  simp only [validate, e0, e1, e2, e3, e4, e7, e15]

/-- Witness for C9 at a concrete pair of inputs: 0 and 0x7F60 agree on the
seven checked bits, so they validate identically. -/
theorem claim9_witness : validate 0 false = validate 0x7F60 false :=
  claim9_validate_depends_only_on_checked_bits.1 false 0 0x7F60 (by decide)

/- ## Claims about the DOS header parser -/

/-- C8: `DosHeader::parse` succeeds for EVERY buffer of length at least 0x40,
whatever its contents — the DOS magic is never compared at parse time — and
returns the little-endian 16-bit value at offset 0 as `signature` and the
little-endian 32-bit value at offset 0x3C as `pe_pointer`. -/
theorem claim8_dos_parse_magic_never_checked (bytes : List Nat)
    (h : 0x40 ≤ bytes.length) :
    DosHeader.parse bytes =
      .ok { signature := leValue ((bytes.drop 0).take 2),
            pe_pointer := leValue ((bytes.drop 0x3c).take 4) } := by
  unfold DosHeader.parse PE_POINTER_OFFSET
  rw [readLE_eq_some bytes 0 2 (by omega), readLE_eq_some bytes 0x3c 4 (by omega)]

/-- Witness for C8: a 64-byte all-zero buffer parses to zeroed fields even
though its signature is not the DOS magic. -/
theorem claim8_witness :
    DosHeader.parse (List.replicate 64 0) =
      .ok { signature := leValue (((List.replicate 64 (0 : Nat)).drop 0).take 2),
            pe_pointer := leValue (((List.replicate 64 (0 : Nat)).drop 0x3c).take 4) } :=
  claim8_dos_parse_magic_never_checked (List.replicate 64 0) (by simp)

/-- C4: `DosHeader::parse` reads the 16-bit signature at offset 0 and the
32-bit PE pointer at fixed offset 0x3C; each failing read yields its own
distinct `Malformed` error naming that field and offset, and every 60-byte
buffer fails with the PE-header-pointer error (no crash, no zeroed
defaults). -/
theorem claim4_dos_parse_errors :
    (∀ bytes : List Nat, bytes.length < 2 →
       DosHeader.parse bytes = .error dos_signature_error) ∧
    (∀ bytes : List Nat, 2 ≤ bytes.length → bytes.length < 0x40 →
       DosHeader.parse bytes = .error dos_pe_pointer_error) ∧
    dos_signature_error ≠ dos_pe_pointer_error ∧
    (∀ bytes : List Nat, bytes.length = 60 →
       DosHeader.parse bytes = .error dos_pe_pointer_error) := by
  refine ⟨fun bytes h => ?_, fun bytes h1 h2 => ?_, ?_, fun bytes h => ?_⟩
  · unfold DosHeader.parse PE_POINTER_OFFSET
    rw [readLE_eq_none bytes 0 2 (by omega)]
  · unfold DosHeader.parse PE_POINTER_OFFSET
    rw [readLE_eq_some bytes 0 2 (by omega), readLE_eq_none bytes 0x3c 4 (by omega)]
  · decide
  · unfold DosHeader.parse PE_POINTER_OFFSET
    rw [readLE_eq_some bytes 0 2 (by omega), readLE_eq_none bytes 0x3c 4 (by omega)]

/-- Witness for C4 at a concrete 60-byte buffer. -/
theorem claim4_witness :
    DosHeader.parse (List.replicate 60 0) = .error dos_pe_pointer_error :=
  claim4_dos_parse_errors.2.2.2 (List.replicate 60 0) (by simp)

/- ## COFF parser helper lemmas -/

/-- When at least 24 bytes remain, `CoffHeader::parse` succeeds, reading the
eight fields little-endian at monotonically increasing offsets and leaving
the cursor 24 bytes after where it started. -/
theorem coff_parse_of_le (bytes : List Nat) (off : Nat) (h : off + 24 ≤ bytes.length) :
    CoffHeader.parse bytes off =
      (.ok { signature := leValue ((bytes.drop off).take 4),
             machine := leValue ((bytes.drop (off + 4)).take 2),
             number_of_sections := leValue ((bytes.drop (off + 6)).take 2),
             time_date_stamp := leValue ((bytes.drop (off + 8)).take 4),
             pointer_to_symbol_table := leValue ((bytes.drop (off + 12)).take 4),
             number_of_symbol_table := leValue ((bytes.drop (off + 16)).take 4),
             size_of_optional_header := leValue ((bytes.drop (off + 20)).take 2),
             characteristics := leValue ((bytes.drop (off + 22)).take 2) },
       off + 24) := by
  simp only [CoffHeader.parse]
  rw [readLE_eq_some bytes off 4 (by omega),
      readLE_eq_some bytes (off + 4) 2 (by omega),
      readLE_eq_some bytes (off + 4 + 2) 2 (by omega),
      readLE_eq_some bytes (off + 4 + 2 + 2) 4 (by omega),
      readLE_eq_some bytes (off + 4 + 2 + 2 + 4) 4 (by omega),
      readLE_eq_some bytes (off + 4 + 2 + 2 + 4 + 4) 4 (by omega),
      readLE_eq_some bytes (off + 4 + 2 + 2 + 4 + 4 + 4) 2 (by omega),
      readLE_eq_some bytes (off + 4 + 2 + 2 + 4 + 4 + 4 + 2) 2 (by omega)]

/-- When field `k` (0-based) is the first read to cross the end of the
buffer, `CoffHeader::parse` stops there with that field's error, and the
cursor ends up advanced by the widths of the `k` fields read before it. -/
theorem coff_parse_fail_at (bytes : List Nat) (off k : Nat) (hk : k < 8)
    (h1 : off + coffPrefix k ≤ bytes.length)
    (h2 : bytes.length < off + coffPrefix (k + 1)) :
    CoffHeader.parse bytes off =
      (.error (coffFieldError (coffFieldNames.getD k "") (off + coffPrefix k)),
       off + coffPrefix k) := by
  interval_cases k
  · have g2 : bytes.length < off + 4 := h2
    simp only [CoffHeader.parse]
    rw [readLE_eq_none bytes off 4 g2]
    rfl
  · have g1 : off + 4 ≤ bytes.length := h1
    have g2 : bytes.length < off + 6 := h2
    simp only [CoffHeader.parse]
    rw [readLE_eq_some bytes off 4 (by omega),
        readLE_eq_none bytes (off + 4) 2 (by omega)]
    rfl
  · have g1 : off + 6 ≤ bytes.length := h1
    have g2 : bytes.length < off + 8 := h2
    simp only [CoffHeader.parse]
    rw [readLE_eq_some bytes off 4 (by omega),
        readLE_eq_some bytes (off + 4) 2 (by omega),
        readLE_eq_none bytes (off + 4 + 2) 2 (by omega)]
    rfl
  · have g1 : off + 8 ≤ bytes.length := h1
    have g2 : bytes.length < off + 12 := h2
    simp only [CoffHeader.parse]
    rw [readLE_eq_some bytes off 4 (by omega),
        readLE_eq_some bytes (off + 4) 2 (by omega),
        readLE_eq_some bytes (off + 4 + 2) 2 (by omega),
        readLE_eq_none bytes (off + 4 + 2 + 2) 4 (by omega)]
    rfl
  · have g1 : off + 12 ≤ bytes.length := h1
    have g2 : bytes.length < off + 16 := h2
    simp only [CoffHeader.parse]
    rw [readLE_eq_some bytes off 4 (by omega),
        readLE_eq_some bytes (off + 4) 2 (by omega),
        readLE_eq_some bytes (off + 4 + 2) 2 (by omega),
        readLE_eq_some bytes (off + 4 + 2 + 2) 4 (by omega),
        readLE_eq_none bytes (off + 4 + 2 + 2 + 4) 4 (by omega)]
    rfl
  · have g1 : off + 16 ≤ bytes.length := h1
    have g2 : bytes.length < off + 20 := h2
    simp only [CoffHeader.parse]
    rw [readLE_eq_some bytes off 4 (by omega),
        readLE_eq_some bytes (off + 4) 2 (by omega),
        readLE_eq_some bytes (off + 4 + 2) 2 (by omega),
        readLE_eq_some bytes (off + 4 + 2 + 2) 4 (by omega),
        readLE_eq_some bytes (off + 4 + 2 + 2 + 4) 4 (by omega),
        readLE_eq_none bytes (off + 4 + 2 + 2 + 4 + 4) 4 (by omega)]
    rfl
  · have g1 : off + 20 ≤ bytes.length := h1
    have g2 : bytes.length < off + 22 := h2
    simp only [CoffHeader.parse]
    rw [readLE_eq_some bytes off 4 (by omega),
        readLE_eq_some bytes (off + 4) 2 (by omega),
        readLE_eq_some bytes (off + 4 + 2) 2 (by omega),
        readLE_eq_some bytes (off + 4 + 2 + 2) 4 (by omega),
        readLE_eq_some bytes (off + 4 + 2 + 2 + 4) 4 (by omega),
        readLE_eq_some bytes (off + 4 + 2 + 2 + 4 + 4) 4 (by omega),
        readLE_eq_none bytes (off + 4 + 2 + 2 + 4 + 4 + 4) 2 (by omega)]
    rfl
  · have g1 : off + 22 ≤ bytes.length := h1
    have g2 : bytes.length < off + 24 := h2
    simp only [CoffHeader.parse]
    rw [readLE_eq_some bytes off 4 (by omega),
        readLE_eq_some bytes (off + 4) 2 (by omega),
        readLE_eq_some bytes (off + 4 + 2) 2 (by omega),
        readLE_eq_some bytes (off + 4 + 2 + 2) 4 (by omega),
        readLE_eq_some bytes (off + 4 + 2 + 2 + 4) 4 (by omega),
        readLE_eq_some bytes (off + 4 + 2 + 2 + 4 + 4) 4 (by omega),
        readLE_eq_some bytes (off + 4 + 2 + 2 + 4 + 4 + 4) 2 (by omega),
        readLE_eq_none bytes (off + 4 + 2 + 2 + 4 + 4 + 4 + 2) 2 (by omega)]
    rfl

/-- A successful `CoffHeader::parse` needs (and implies) 24 readable bytes
from the start offset. -/
theorem coff_parse_ok_bound (bytes : List Nat) (off : Nat) (coff : CoffHeader)
    (off2 : Nat) (h : CoffHeader.parse bytes off = (.ok coff, off2)) :
    off + 24 ≤ bytes.length := by
  simp only [CoffHeader.parse] at h
  cases q1 : readLE bytes off 4
  · simp only [q1] at h
    simp at h
  · simp only [q1] at h
    cases q2 : readLE bytes (off + 4) 2
    · simp only [q2] at h
      simp at h
    · simp only [q2] at h
      cases q3 : readLE bytes (off + 4 + 2) 2
      · simp only [q3] at h
        simp at h
      · simp only [q3] at h
        cases q4 : readLE bytes (off + 4 + 2 + 2) 4
        · simp only [q4] at h
          simp at h
        · simp only [q4] at h
          cases q5 : readLE bytes (off + 4 + 2 + 2 + 4) 4
          · simp only [q5] at h
            simp at h
          · simp only [q5] at h
            cases q6 : readLE bytes (off + 4 + 2 + 2 + 4 + 4) 4
            · simp only [q6] at h
              simp at h
            · simp only [q6] at h
              cases q7 : readLE bytes (off + 4 + 2 + 2 + 4 + 4 + 4) 2
              · simp only [q7] at h
                simp at h
              · simp only [q7] at h
                cases q8 : readLE bytes (off + 4 + 2 + 2 + 4 + 4 + 4 + 2) 2
                · simp only [q8] at h
                  simp at h
                · have := readLE_bound bytes (off + 4 + 2 + 2 + 4 + 4 + 4 + 2) 2 _ q8
                  omega

/- ## Claims about the COFF header parser -/

/-- C3: `CoffHeader::parse` reads the eight fields in fixed order,
little-endian, at monotonically increasing offsets; on success the caller's
offset equals its initial value plus 24; a read failure at any field `k`
aborts immediately with a `Malformed` error naming that field and its
offset, and no structure is returned. -/
theorem claim3_coff_parse_contract :
    (∀ (bytes : List Nat) (off : Nat) (coff : CoffHeader) (off2 : Nat),
       CoffHeader.parse bytes off = (.ok coff, off2) →
       off + 24 ≤ bytes.length ∧ off2 = off + 24 ∧
       coff = { signature := leValue ((bytes.drop off).take 4),
                machine := leValue ((bytes.drop (off + 4)).take 2),
                number_of_sections := leValue ((bytes.drop (off + 6)).take 2),
                time_date_stamp := leValue ((bytes.drop (off + 8)).take 4),
                pointer_to_symbol_table := leValue ((bytes.drop (off + 12)).take 4),
                number_of_symbol_table := leValue ((bytes.drop (off + 16)).take 4),
                size_of_optional_header := leValue ((bytes.drop (off + 20)).take 2),
                characteristics := leValue ((bytes.drop (off + 22)).take 2) }) ∧
    (∀ (bytes : List Nat) (off k : Nat), k < 8 →
       off + coffPrefix k ≤ bytes.length → bytes.length < off + coffPrefix (k + 1) →
       CoffHeader.parse bytes off =
         (.error (coffFieldError (coffFieldNames.getD k "") (off + coffPrefix k)),
          off + coffPrefix k)) := by
  constructor
  · intro bytes off coff off2 h
    have hb := coff_parse_ok_bound bytes off coff off2 h
    rw [coff_parse_of_le bytes off hb] at h
    simp only [Prod.mk.injEq, Except.ok.injEq] at h
    exact ⟨hb, h.2.symm, h.1.symm⟩
  · exact fun bytes off k hk h1 h2 => coff_parse_fail_at bytes off k hk h1 h2

/-- Witness for C3 at a concrete input: a 7-byte buffer fails at field 2
("number of sections"), at cursor displacement 6. -/
theorem claim3_witness :
    CoffHeader.parse (List.replicate 7 0) 0 =
      (.error (coffFieldError (coffFieldNames.getD 2 "") (0 + coffPrefix 2)),
       0 + coffPrefix 2) :=
  claim3_coff_parse_contract.2 (List.replicate 7 0) 0 2 (by norm_num) (by decide) (by decide)

/-- C10: when `CoffHeader::parse` fails at field `k` (0-based), the caller's
offset variable is not rolled back: it ends at its initial value plus the
combined widths of the `k` fields read successfully before the failing one
(`coffPrefix k`). -/
theorem claim10_error_cursor_not_restored :
    ∀ (bytes : List Nat) (off k : Nat), k < 8 →
      off + coffPrefix k ≤ bytes.length → bytes.length < off + coffPrefix (k + 1) →
      (CoffHeader.parse bytes off).1.isOk = false ∧
      (CoffHeader.parse bytes off).2 = off + coffPrefix k := by
  intro bytes off k hk h1 h2
  rw [coff_parse_fail_at bytes off k hk h1 h2]
  exact ⟨rfl, rfl⟩

/-- Witness for C10 at a concrete input: a 10-byte buffer fails at field 3
("time date stamp") after three successful reads, leaving the cursor at 8,
not at its initial value 0. -/
theorem claim10_witness :
    (CoffHeader.parse (List.replicate 10 0) 0).1.isOk = false ∧
    (CoffHeader.parse (List.replicate 10 0) 0).2 = 0 + coffPrefix 3 :=
  claim10_error_cursor_not_restored (List.replicate 10 0) 0 3 (by norm_num) (by decide) (by decide)

/- ## Claims about the header aggregator -/

/-- Helper: a DOS-header failure propagates out of the aggregator unchanged. -/
theorem header_parse_dos_err {OH : Type} (p : List Nat → Nat → Except Error OH)
    (bytes : List Nat) (e : Error) (hd : DosHeader.parse bytes = .error e) :
    Header.parse p bytes = .error e := by
  unfold Header.parse
  simp only [hd]

/-- Helper: a COFF-header failure propagates out of the aggregator unchanged. -/
theorem header_parse_coff_err {OH : Type} (p : List Nat → Nat → Except Error OH)
    (bytes : List Nat) (dos : DosHeader) (e : Error) (off2 : Nat)
    (hd : DosHeader.parse bytes = .ok dos)
    (hc : CoffHeader.parse bytes dos.pe_pointer = (.error e, off2)) :
    Header.parse p bytes = .error e := by
  unfold Header.parse
  simp only [hd, hc]

/-- Helper: when the COFF header reports no optional header, the aggregator
returns immediately with `optional_header = none`, never consulting the
delegated optional-header parser. -/
theorem header_parse_no_opt {OH : Type} (p : List Nat → Nat → Except Error OH)
    (bytes : List Nat) (dos : DosHeader) (coff : CoffHeader) (off2 : Nat)
    (hd : DosHeader.parse bytes = .ok dos)
    (hc : CoffHeader.parse bytes dos.pe_pointer = (.ok coff, off2))
    (hsz : coff.size_of_optional_header = 0) :
    Header.parse p bytes =
      .ok { dos_header := dos, coff_header := coff, optional_header := none } := by
  unfold Header.parse
  simp only [hd, hc]
  rw [if_neg (by omega)]

/-- Helper: with a positive optional-header size, a failing delegated parse
propagates out of the aggregator unchanged. -/
theorem header_parse_opt_err {OH : Type} (p : List Nat → Nat → Except Error OH)
    (bytes : List Nat) (dos : DosHeader) (coff : CoffHeader) (off2 : Nat) (e : Error)
    (hd : DosHeader.parse bytes = .ok dos)
    (hc : CoffHeader.parse bytes dos.pe_pointer = (.ok coff, off2))
    (hs : 0 < coff.size_of_optional_header)
    (hq : p bytes off2 = .error e) :
    Header.parse p bytes = .error e := by
  unfold Header.parse
  simp only [hd, hc]
  rw [if_pos hs, hq]

/-- Helper: with a positive optional-header size and a succeeding delegated
parse, the aggregator stores the delegate's result. -/
theorem header_parse_with_opt {OH : Type} (p : List Nat → Nat → Except Error OH)
    (bytes : List Nat) (dos : DosHeader) (coff : CoffHeader) (off2 : Nat) (oh : OH)
    (hd : DosHeader.parse bytes = .ok dos)
    (hc : CoffHeader.parse bytes dos.pe_pointer = (.ok coff, off2))
    (hs : 0 < coff.size_of_optional_header)
    (hq : p bytes off2 = .ok oh) :
    Header.parse p bytes =
      .ok { dos_header := dos, coff_header := coff, optional_header := some oh } := by
  unfold Header.parse
  simp only [hd, hc]
  rw [if_pos hs, hq]

/-- C2: `Header::parse` yields `optional_header` present iff
`size_of_optional_header > 0`; with a zero size it never invokes the
delegated parser (its result is the same for every delegate); and any
failure of the DOS parse, the COFF parse, or the delegated optional-header
parse propagates to the caller unchanged with no partial `Header`. -/
theorem claim2_header_aggregation :
    (∀ (OH : Type) (p : List Nat → Nat → Except Error OH) (bytes : List Nat)
       (h : Header OH),
       Header.parse p bytes = .ok h →
       (h.optional_header.isSome = true ↔ 0 < h.coff_header.size_of_optional_header)) ∧
    (∀ (OH : Type) (p q : List Nat → Nat → Except Error OH) (bytes : List Nat)
       (dos : DosHeader) (coff : CoffHeader) (off2 : Nat),
       DosHeader.parse bytes = .ok dos →
       CoffHeader.parse bytes dos.pe_pointer = (.ok coff, off2) →
       coff.size_of_optional_header = 0 →
       Header.parse p bytes =
         .ok { dos_header := dos, coff_header := coff, optional_header := none } ∧
       Header.parse p bytes = Header.parse q bytes) ∧
    (∀ (OH : Type) (p : List Nat → Nat → Except Error OH) (bytes : List Nat)
       (e : Error),
       DosHeader.parse bytes = .error e → Header.parse p bytes = .error e) ∧
    (∀ (OH : Type) (p : List Nat → Nat → Except Error OH) (bytes : List Nat)
       (dos : DosHeader) (e : Error) (off2 : Nat),
       DosHeader.parse bytes = .ok dos →
       CoffHeader.parse bytes dos.pe_pointer = (.error e, off2) →
       Header.parse p bytes = .error e) ∧
    (∀ (OH : Type) (p : List Nat → Nat → Except Error OH) (bytes : List Nat)
       (dos : DosHeader) (coff : CoffHeader) (off2 : Nat) (e : Error),
       DosHeader.parse bytes = .ok dos →
       CoffHeader.parse bytes dos.pe_pointer = (.ok coff, off2) →
       0 < coff.size_of_optional_header →
       p bytes off2 = .error e →
       Header.parse p bytes = .error e) := by
  refine ⟨?_, ?_, ?_, ?_, ?_⟩
  · intro OH p bytes h hp
    cases hd : DosHeader.parse bytes with
    | error e =>
      rw [header_parse_dos_err p bytes e hd] at hp
      exact absurd hp (by simp)
    | ok dos =>
      rcases hc : CoffHeader.parse bytes dos.pe_pointer with ⟨r, off2⟩
      cases r with
      | error e =>
        rw [header_parse_coff_err p bytes dos e off2 hd hc] at hp
        exact absurd hp (by simp)
      | ok coff =>
        by_cases hs : 0 < coff.size_of_optional_header
        · cases hq : p bytes off2 with
          | error e =>
            rw [header_parse_opt_err p bytes dos coff off2 e hd hc hs hq] at hp
            exact absurd hp (by simp)
          | ok oh =>
            rw [header_parse_with_opt p bytes dos coff off2 oh hd hc hs hq] at hp
            injection hp with h2
            subst h2
            simpa using hs
        · rw [header_parse_no_opt p bytes dos coff off2 hd hc (by omega)] at hp
          injection hp with h2
          subst h2
          simpa using hs
  · intro OH p q bytes dos coff off2 hd hc hsz
    exact ⟨header_parse_no_opt p bytes dos coff off2 hd hc hsz,
           (header_parse_no_opt p bytes dos coff off2 hd hc hsz).trans
             (header_parse_no_opt q bytes dos coff off2 hd hc hsz).symm⟩
  · exact fun OH p bytes e hd => header_parse_dos_err p bytes e hd
  · exact fun OH p bytes dos e off2 hd hc => header_parse_coff_err p bytes dos e off2 hd hc
  · exact fun OH p bytes dos coff off2 e hd hc hs hq =>
      header_parse_opt_err p bytes dos coff off2 e hd hc hs hq

/-- Witness for C2 at a concrete input: on the empty buffer the DOS
signature read fails and the aggregator propagates exactly that error. -/
theorem claim2_witness :
    Header.parse (fun _ _ => (.ok () : Except Error Unit)) [] =
      .error dos_signature_error :=
  claim2_header_aggregation.2.2.1 Unit (fun _ _ => .ok ()) [] dos_signature_error rfl

/- ## End-to-end claim on the CRSS sample buffer -/

/-- C7: on the 688-byte CRSS sample buffer, `Header::parse` succeeds with
`dos_header.signature = 0x5A4D`, `coff_header.signature = 0x00004550` and
`coff_header.machine = 0x014C`.  The optional-header parser is external to
this core (spec §2, §9), so the theorem holds for every delegated parser
that succeeds at the handoff offset 0xE8 = pe_pointer 0xD0 + 24. -/
theorem claim7_crss_header (OH : Type) (p : List Nat → Nat → Except Error OH)
    (oh : OH) (hp : p CRSS_HEADER 0xe8 = .ok oh) :
    ∃ h : Header OH, Header.parse p CRSS_HEADER = .ok h ∧
      h.dos_header.signature = DOS_MAGIC ∧
      h.coff_header.signature = COFF_MAGIC ∧
      h.coff_header.machine = COFF_MACHINE_X86 := by
  refine ⟨{ dos_header := { signature := 0x5a4d, pe_pointer := 0xd0 },
            coff_header := { signature := 0x4550, machine := 0x14c,
                             number_of_sections := 5,
                             time_date_stamp := 0x52158fd9,
                             pointer_to_symbol_table := 0,
                             number_of_symbol_table := 0,
                             size_of_optional_header := 0xe0,
                             characteristics := 0x0102 },
            optional_header := some oh }, ?_, rfl, rfl, rfl⟩
  exact header_parse_with_opt p CRSS_HEADER
    { signature := 0x5a4d, pe_pointer := 0xd0 }
    { signature := 0x4550, machine := 0x14c, number_of_sections := 5,
      time_date_stamp := 0x52158fd9, pointer_to_symbol_table := 0,
      number_of_symbol_table := 0, size_of_optional_header := 0xe0,
      characteristics := 0x0102 }
    0xe8 oh rfl rfl (by norm_num) hp

/-- Witness for C7 with a concrete trivial delegated parser. -/
theorem claim7_witness :
    ∃ h : Header Unit,
      Header.parse (fun _ _ => (.ok () : Except Error Unit)) CRSS_HEADER = .ok h ∧
      h.dos_header.signature = DOS_MAGIC ∧
      h.coff_header.signature = COFF_MAGIC ∧
      h.coff_header.machine = COFF_MACHINE_X86 :=
  claim7_crss_header Unit (fun _ _ => .ok ()) () rfl
